import Mathlib

/-!
# Verification of the quorum-store proof aggregation layer

Shallow embedding of `consensus/src/quorum_store/proof_builder.rs` and
`consensus/src/quorum_store/types.rs`: the `ProofBuilder` actor that folds
validator signatures over a batch digest into a Proof of Store, and the
`Fragment`/`Batch` wire types with their `verify` checks.

Digests, peer identities, signatures and serialized transactions are
opaque byte-level values in the source; they are embedded as `Nat`.
The `HashMap<HashValue, _>` backing `digest_to_proof` is embedded as an
association list with replace-on-insert semantics.  One-shot reply
channels are embedded as channel identifiers; a send on a channel is an
observable event.
-/

namespace QuorumStore

/-- Opaque cryptographic digest (`HashValue`). -/
abbrev HashValue := Nat

/-- Opaque peer identity (`PeerId`). -/
abbrev PeerId := Nat

/-- Embeds `pub(crate) type BatchId = u64;` -/
abbrev BatchId := Nat

/-- Opaque signature bytes. -/
abbrev Signature := Nat

/-- Identifier of a one-shot reply channel (`ProofReturnChannel`). -/
abbrev ChannelId := Nat

/-- Embeds `aptos_consensus_types::proof_of_store::LogicalTime`: an (epoch, round)
pair; only `epoch()` is consulted by the code under verification. -/
structure LogicalTime where
  epoch : Nat
  round : Nat
deriving Repr, DecidableEq

/-- Modelled from the spec: `SignedDigestInfo` is "the digest and associated
metadata that validators sign over"; the aggregator reads only its `digest`
field, so the metadata is elided.  (The defining crate `consensus_types` is
not part of the excerpted sources.) -/
structure SignedDigestInfo where
  digest : HashValue
deriving Repr, DecidableEq

/-- Modelled from the spec: the error taxonomy of signature folding — a
signature for an unknown/mismatched digest, or a duplicate contribution
from the same validator (spec §7: *UnknownDigest*,
*DuplicateOrConflictingSigner*).  (`SignedDigestError` is defined in the
`consensus_types` crate, not in the excerpted sources.) -/
inductive SignedDigestError where
  | WrongDigest
  | DuplicatedSignature
deriving Repr, DecidableEq

/-- Embeds `QuorumStoreError::Timeout(batch_id)`: the typed failure carrying the
batch id, pushed to the registrant on expiry. -/
inductive QuorumStoreError where
  | Timeout (batch_id : BatchId)
deriving Repr, DecidableEq

/-- Modelled from the spec: a signed endorsement for a digest as received
from the network — signer identity, the signed-over info, and the
signature (`SignedDigest` lives in the `consensus_types` crate; the
aggregator reads exactly the fields `peer_id`, `info.digest`,
`signature`). -/
structure SignedDigest where
  peer_id : PeerId
  info : SignedDigestInfo
  signature : Signature
deriving Repr, DecidableEq

/-- Modelled from the spec: the in-progress quorum certificate — "the
`SignedDigestInfo`, a growing set of (validator, signature) pairs"
(spec §3).  (`ProofOfStore` lives in the `consensus_types` crate.) -/
structure ProofOfStore where
  info : SignedDigestInfo
  signatures : List (PeerId × Signature)
deriving Repr, DecidableEq

/-- Embeds `ProofOfStore::new(info)`: empty certificate over `info`. -/
def ProofOfStore.new (info : SignedDigestInfo) : ProofOfStore :=
  { info := info, signatures := [] }

/-- The set of signers accumulated so far. -/
def ProofOfStore.signers (p : ProofOfStore) : List PeerId :=
  p.signatures.map Prod.fst

/-- Modelled from the spec: folding a signature into the certificate —
"the signer has not already contributed a signature to this certificate
(duplicate contribution from the same validator is rejected as an error,
not merged or ignored silently)" (spec §4.3).  On failure the certificate
is unchanged (the fold returns the error and leaves the aggregate as it
was). -/
def ProofOfStore.add_signature (p : ProofOfStore) (peer_id : PeerId)
    (signature : Signature) : Except SignedDigestError ProofOfStore :=
  if p.signers.contains peer_id then
    .error .DuplicatedSignature
  else
    .ok { p with signatures := (peer_id, signature) :: p.signatures }

/-- Modelled from the spec: the validator-set capability — "exposes the
voting power of a given validator and a scalar/boolean quorum-threshold
evaluation over an accumulated set of signers" (spec §6).
(`ValidatorVerifier` lives in `aptos_types`, outside the excerpted
sources.) -/
structure ValidatorVerifier where
  voting_power : List (PeerId × Nat)
  quorum_threshold : Nat
deriving Repr, DecidableEq

/-- Voting power of one validator (0 for a peer outside the set). -/
def ValidatorVerifier.power (vv : ValidatorVerifier) (p : PeerId) : Nat :=
  match vv.voting_power.lookup p with
  | some w => w
  | none => 0

/-- Sum of the voting power behind a list of signers. -/
def ValidatorVerifier.sumPower (vv : ValidatorVerifier)
    (signers : List PeerId) : Nat :=
  (signers.map vv.power).sum

/-- Modelled from the spec: readiness of the certificate — "the sum of
voting power behind all signers-so-far is compared against the Byzantine
quorum threshold"; "the own identity's perspective is used only to decide
whether readiness should additionally require the local validator to have
itself signed" (spec §4.3). -/
def ProofOfStore.ready (p : ProofOfStore) (vv : ValidatorVerifier)
    (my_id : PeerId) : Bool :=
  p.signers.contains my_id && vv.quorum_threshold ≤ vv.sumPower p.signers

/-! ## The digest → proof-context map

`digest_to_proof : HashMap<HashValue, (ProofOfStore, BatchId, ProofReturnChannel)>`
embedded as an association list.  `insert` replaces any existing binding
and `erase` removes it, mirroring `HashMap::insert` / `HashMap::remove`. -/

/-- A proof-context map entry: in-progress certificate, originating batch
id, and the stored one-shot reply channel. -/
abbrev ProofEntry := ProofOfStore × BatchId × ChannelId

/-- The proof-context map. -/
abbrev ProofMap := List (HashValue × ProofEntry)

/-- Embeds `HashMap::get`. -/
def mapLookup : ProofMap → HashValue → Option ProofEntry
  | [], _ => none
  | kv :: m, d => if kv.1 = d then some kv.2 else mapLookup m d

/-- Embeds `HashMap::remove` (the removed value, when present, is `mapLookup`). -/
def mapErase : ProofMap → HashValue → ProofMap
  | [], _ => []
  | kv :: m, d => if kv.1 = d then mapErase m d else kv :: mapErase m d

/-- Embeds `HashMap::insert` — replaces any existing binding for the key. -/
def mapInsert (m : ProofMap) (d : HashValue) (v : ProofEntry) : ProofMap :=
  (d, v) :: mapErase m d

/-! ## Digest Timeout Tracker -/

/-- Modelled from the spec: the Digest Timeout Tracker (`DigestTimeouts`,
whose source `utils.rs` is not among the excerpted files) — "a
time-bucketed expiry queue mapping digests to deadlines; advanced on a
periodic tick" (spec §2), with a deadline bucketed
`ceil(timeout_ms / tick_interval_ms)` ticks ahead at a 100 ms tick
(spec §9).  `now` counts ticks; each record pairs a deadline tick with a
digest; re-adding a digest creates an additional, independent record
(spec §4.1: "the tracker does not deduplicate"). -/
structure DigestTimeouts where
  now : Nat
  records : List (Nat × HashValue)
deriving Repr, DecidableEq

/-- Embeds `DigestTimeouts::new()`. -/
def DigestTimeouts.new : DigestTimeouts :=
  { now := 0, records := [] }

/-- Modelled from the spec: `add_digest(digest, timeout_ms)` registers a
deadline `ceil(timeout_ms / 100)` ticks from the current tick
(spec §4.1, §9). -/
def DigestTimeouts.add_digest (t : DigestTimeouts) (digest : HashValue)
    (timeout_ms : Nat) : DigestTimeouts :=
  { t with records := t.records ++ [(t.now + (timeout_ms + 99) / 100, digest)] }

/-- Modelled from the spec: `expire()` advances "now" by one tick and
returns every digest whose deadline has elapsed, removing each returned
record so that consumption is exactly-once per registration (spec §4.1). -/
def DigestTimeouts.expire (t : DigestTimeouts) :
    List HashValue × DigestTimeouts :=
  let now := t.now + 1
  let expired := t.records.filter (fun r => r.1 ≤ now)
  let kept := t.records.filter (fun r => ¬ r.1 ≤ now)
  (expired.map Prod.snd, { now := now, records := kept })

/-! ## The ProofBuilder actor -/

/-- The value delivered on a reply channel:
`Result<(ProofOfStore, BatchId), QuorumStoreError>`. -/
inductive ProofResult where
  | ok (proof : ProofOfStore) (batch_id : BatchId)
  | err (e : QuorumStoreError)
deriving Repr, DecidableEq

/-- An observable output of the aggregator: a value sent on a one-shot
reply channel (`Ok((proof, batch_id))` on quorum, `Err(Timeout(batch_id))`
on expiry). -/
inductive QSEvent where
  | sent (chan : ChannelId) (msg : ProofResult)
deriving Repr, DecidableEq

/-- Embeds `ProofBuilder` state: own identity, configured timeout, the
digest → (certificate, batch id, reply channel) map, and the tracker. -/
structure ProofBuilder where
  peer_id : PeerId
  proof_timeout_ms : Nat
  digest_to_proof : ProofMap
  timeouts : DigestTimeouts
deriving Repr, DecidableEq

/-- Embeds `ProofBuilder::new(proof_timeout_ms, peer_id)`. -/
def ProofBuilder.new (proof_timeout_ms : Nat) (peer_id : PeerId) :
    ProofBuilder :=
  { peer_id := peer_id, proof_timeout_ms := proof_timeout_ms,
    digest_to_proof := [], timeouts := DigestTimeouts.new }

/-- Embeds `ProofBuilder::init_proof`: registers a timeout for the digest and
inserts a fresh proof context (empty certificate, batch id, reply
channel).  Always returns `Ok(())`; sends nothing. -/
def ProofBuilder.init_proof (s : ProofBuilder) (info : SignedDigestInfo)
    (batch_id : BatchId) (tx : ChannelId) :
    Except SignedDigestError Unit × ProofBuilder × List QSEvent :=
  let timeouts := s.timeouts.add_digest info.digest s.proof_timeout_ms
  let m := mapInsert s.digest_to_proof info.digest
    (ProofOfStore.new info, batch_id, tx)
  (.ok (), { s with timeouts := timeouts, digest_to_proof := m }, [])

/-- Embeds `ProofBuilder::add_signature`: unknown digest is rejected with
`WrongDigest` and nothing changes; otherwise the signature is folded into
the stored certificate (`and_modify`); on fold failure the error is
returned and the entry is left as it was; on fold success readiness is
evaluated and, when ready, the entry is removed and the completed
certificate with the original batch id is sent on the stored channel. -/
def ProofBuilder.add_signature (s : ProofBuilder) (sd : SignedDigest)
    (vv : ValidatorVerifier) :
    Except SignedDigestError Unit × ProofBuilder × List QSEvent :=
  match mapLookup s.digest_to_proof sd.info.digest with
  | none => (.error .WrongDigest, s, [])
  | some (proof, batch_id, tx) =>
    match proof.add_signature sd.peer_id sd.signature with
    | .error e =>
      (.error e, s, [])
    | .ok proof' =>
      if proof'.ready vv s.peer_id then
        (.ok (),
         { s with digest_to_proof := mapErase s.digest_to_proof sd.info.digest },
         [.sent tx (.ok proof' batch_id)])
      else
        (.ok (),
         { s with digest_to_proof :=
             mapInsert s.digest_to_proof sd.info.digest (proof', batch_id, tx) },
         [])

/-- The body of the `for digest in self.timeouts.expire()` loop of
`ProofBuilder::expire`: for each expired digest still in the map, remove
its entry and send the timeout failure carrying its batch id. -/
def expireLoop : List HashValue → ProofMap → ProofMap × List QSEvent
  | [], m => (m, [])
  | d :: ds, m =>
    match mapLookup m d with
    | some (_, batch_id, tx) =>
      let r := expireLoop ds (mapErase m d)
      (r.1, .sent tx (.err (.Timeout batch_id)) :: r.2)
    | none => expireLoop ds m

/-- Embeds `ProofBuilder::expire`: poll the tracker and process every expired
digest. -/
def ProofBuilder.expire (s : ProofBuilder) : ProofBuilder × List QSEvent :=
  let r := s.timeouts.expire
  let l := expireLoop r.1 s.digest_to_proof
  ({ s with timeouts := r.2, digest_to_proof := l.1 }, l.2)

/-- The two event sources interleaved by the actor's select loop after a
digest is registered: an `AppendSignature` command or a 100 ms timer
tick. -/
inductive Cmd where
  | append (sd : SignedDigest)
  | tick
deriving Repr, DecidableEq

/-- One iteration of the actor loop (the command's `Result` is consumed by
logging only, as in `start`). -/
def ProofBuilder.step (s : ProofBuilder) (vv : ValidatorVerifier) :
    Cmd → ProofBuilder × List QSEvent
  | .append sd => let r := s.add_signature sd vv; (r.2.1, r.2.2)
  | .tick => s.expire

/-- Run the actor over a sequence of commands and ticks, collecting all
sent events. -/
def ProofBuilder.run (s : ProofBuilder) (vv : ValidatorVerifier) :
    List Cmd → ProofBuilder × List QSEvent
  | [] => (s, [])
  | c :: cs =>
    let r := s.step vv c
    let r' := r.1.run vv cs
    (r'.1, r.2 ++ r'.2)

/-- Number of values sent on channel `c` among the events. -/
def sentOn (c : ChannelId) (evs : List QSEvent) : Nat :=
  (evs.filter (fun e => match e with | .sent ch _ => ch = c)).length

/-- Run a sequence of `AppendSignature` commands, also collecting the
per-command results returned to the immediate caller. -/
def ProofBuilder.runAppends (s : ProofBuilder) (vv : ValidatorVerifier) :
    List SignedDigest →
    ProofBuilder × List QSEvent × List (Except SignedDigestError Unit)
  | [] => (s, [], [])
  | sd :: sds =>
    let r := s.add_signature sd vv
    let r' := r.2.1.runAppends vv sds
    (r'.1, r.2.2 ++ r'.2.1, r.1 :: r'.2.2)

/-- Channel `c` is stored in no map entry (its one-shot sender has been
consumed or never stored). -/
def chanFree (m : ProofMap) (c : ChannelId) : Prop :=
  ∀ kv ∈ m, kv.2.2.2 ≠ c

/-- Every map entry storing channel `c` is the entry of digest `d`
(one-shot senders are owned by a single registration). -/
def chanOnlyAt (m : ProofMap) (d : HashValue) (c : ChannelId) : Prop :=
  ∀ kv ∈ m, kv.2.2.2 = c → kv.1 = d

/-! ## Panic-aware refinement of the reply delivery

`ProofBuilder.add_signature` and `ProofBuilder.expire` deliver replies with
`tx.send(..).expect(..)`.  A `futures::channel::oneshot` send fails exactly
when the receiving end has been dropped, and `.expect` on that failure
panics, aborting the actor.  The variants below make that explicit:
`dropped` lists the channels whose receivers no longer exist. -/

/-- Either a normal result or a panic with the `.expect` message. -/
inductive PanicOr (α : Type) where
  | ok (a : α)
  | panicked (msg : String)
deriving Repr, DecidableEq

/-- Embeds `ProofBuilder::add_signature` with the `.expect` on the reply send made
explicit: identical to `ProofBuilder.add_signature`, except that when the
quorum branch sends on a channel in `dropped` the actor panics with
"Unable to send the proof of store". -/
def ProofBuilder.add_signature_checked (dropped : List ChannelId)
    (s : ProofBuilder) (sd : SignedDigest) (vv : ValidatorVerifier) :
    PanicOr (Except SignedDigestError Unit × ProofBuilder × List QSEvent) :=
  match mapLookup s.digest_to_proof sd.info.digest with
  | none => .ok (.error .WrongDigest, s, [])
  | some (proof, batch_id, tx) =>
    match proof.add_signature sd.peer_id sd.signature with
    | .error e =>
      .ok (.error e, s, [])
    | .ok proof' =>
      if proof'.ready vv s.peer_id then
        if dropped.contains tx then
          .panicked "Unable to send the proof of store"
        else
          .ok (.ok (),
           { s with digest_to_proof := mapErase s.digest_to_proof sd.info.digest },
           [.sent tx (.ok proof' batch_id)])
      else
        .ok (.ok (),
         { s with digest_to_proof :=
             mapInsert s.digest_to_proof sd.info.digest (proof', batch_id, tx) },
         [])

/-- The loop body of `ProofBuilder::expire` with the `.expect` on the
timeout send made explicit: panics with "Unable to send the timeout a
proof of store" when the stored channel's receiver has been dropped. -/
def expireLoopChecked (dropped : List ChannelId) :
    List HashValue → ProofMap → PanicOr (ProofMap × List QSEvent)
  | [], m => .ok (m, [])
  | d :: ds, m =>
    match mapLookup m d with
    | some (_, batch_id, tx) =>
      if dropped.contains tx then
        .panicked "Unable to send the timeout a proof of store"
      else
        match expireLoopChecked dropped ds (mapErase m d) with
        | .ok r => .ok (r.1, .sent tx (.err (.Timeout batch_id)) :: r.2)
        | .panicked msg => .panicked msg
    | none => expireLoopChecked dropped ds m

/-! ## Wire-level transport types (`types.rs`) -/

/-- Opaque `SignedTransaction` (payload content is never inspected by the
code under verification). -/
abbrev SignedTransaction := Nat

/-- Embeds `SerializedTransaction`: pre-serialized transaction bytes. -/
structure SerializedTransaction where
  bytes : List Nat
deriving Repr, DecidableEq

/-- Embeds `FragmentInfo`: one chunk of a batch's transaction payload. -/
structure FragmentInfo where
  epoch : Nat
  batch_id : Nat
  fragment_id : Nat
  payload : List SerializedTransaction
  maybe_expiration : Option LogicalTime
deriving Repr, DecidableEq

/-- Embeds `Fragment`: a `FragmentInfo` plus its claimed source identity. -/
structure Fragment where
  source : PeerId
  fragment_info : FragmentInfo
deriving Repr, DecidableEq

/-- Embeds `Fragment::epoch()`. -/
def Fragment.epoch (f : Fragment) : Nat :=
  f.fragment_info.epoch

/-- The distinguishable failures of `Fragment::verify` / `Batch::verify`
(the source returns distinct `anyhow` messages; the constructors stand for
"Quorum store is not enabled locally", "Epoch mismatch" and
"Sender mismatch"). -/
inductive VerifyError where
  | QuorumStoreDisabled
  | EpochMismatch
  | SenderMismatch
deriving Repr, DecidableEq

/-- Embeds `Fragment::verify(peer_id, quorum_store_enabled)`: feature gate first,
then the embedded expiration's epoch against the fragment's own epoch,
then the claimed source against the attested sender. -/
def Fragment.verify (f : Fragment) (peer_id : PeerId)
    (quorum_store_enabled : Bool) : Except VerifyError Unit :=
  if quorum_store_enabled = false then
    .error .QuorumStoreDisabled
  else
    match f.fragment_info.maybe_expiration with
    | some expiration =>
      if expiration.epoch ≠ f.fragment_info.epoch then
        .error .EpochMismatch
      else if f.source = peer_id then .ok () else .error .SenderMismatch
    | none =>
      if f.source = peer_id then .ok () else .error .SenderMismatch

/-- Embeds `BatchInfo`: identity of a batch — epoch and content digest. -/
structure BatchInfo where
  epoch : Nat
  digest : HashValue
deriving Repr, DecidableEq

/-- Embeds `Batch`: a full-batch request (`maybe_payload = none`) or response
(`maybe_payload = some payload`). -/
structure Batch where
  source : PeerId
  maybe_payload : Option (List SignedTransaction)
  batch_info : BatchInfo
deriving Repr, DecidableEq

/-- Embeds `Batch::epoch()`. -/
def Batch.epoch (b : Batch) : Nat :=
  b.batch_info.epoch

/-- Embeds `Batch::verify(peer_id, quorum_store_enabled)`: feature gate, then
claimed source against attested sender; the payload is never inspected. -/
def Batch.verify (b : Batch) (peer_id : PeerId)
    (quorum_store_enabled : Bool) : Except VerifyError Unit :=
  if quorum_store_enabled = false then
    .error .QuorumStoreDisabled
  else if b.source = peer_id then .ok () else .error .SenderMismatch

/-- Embeds `Batch::get_payload`: `self.maybe_payload.expect("Batch contains no
payload")` — returns the payload of a response and panics on a request. -/
def Batch.get_payload (b : Batch) : PanicOr (List SignedTransaction) :=
  match b.maybe_payload with
  | some payload => .ok payload
  | none => .panicked "Batch contains no payload"

/-- Digest `d` has a pending proof context whose stored channel is `c`,
and `c` is stored nowhere else. -/
def pendingAt (m : ProofMap) (d : HashValue) (c : ChannelId) : Prop :=
  (∃ p b, mapLookup m d = some (p, b, c)) ∧ chanOnlyAt m d c

/-! ### Concrete states used to exercise the theorems -/

/-- A builder holding one pending digest (5, batch 7, channel 0). -/
def builderC1 : ProofBuilder :=
  { peer_id := 1, proof_timeout_ms := 1000,
    digest_to_proof := [(5, (ProofOfStore.new ⟨5⟩, 7, 0))],
    timeouts := DigestTimeouts.new }

/-- Validator 1 has power 10 against a threshold of 5. -/
def vvC1 : ValidatorVerifier :=
  { voting_power := [(1, 10)], quorum_threshold := 5 }

/-- A builder holding one pending digest and two due timeout records, one
of them for a digest (6) with no map entry. -/
def builderC4 : ProofBuilder :=
  { peer_id := 1, proof_timeout_ms := 100,
    digest_to_proof := [(5, (ProofOfStore.new ⟨5⟩, 7, 100))],
    timeouts := { now := 0, records := [(1, 5), (1, 6)] } }

/-- A builder holding one pending digest (5, batch 7, channel 0). -/
def builderC3 : ProofBuilder :=
  { peer_id := 1, proof_timeout_ms := 1000,
    digest_to_proof := [(5, (ProofOfStore.new ⟨5⟩, 7, 0))],
    timeouts := DigestTimeouts.new }

/-- Validator 1 has power 10 against a threshold of 5. -/
def vvC3 : ValidatorVerifier :=
  { voting_power := [(1, 10)], quorum_threshold := 5 }

/-- The certificate for digest 5 after validator 1's signature. -/
def proofC3 : ProofOfStore :=
  { info := ⟨5⟩, signatures := [(1, 77)] }

/-- A builder holding one pending digest (5, batch 7, channel 0). -/
def builderC5 : ProofBuilder :=
  { peer_id := 1, proof_timeout_ms := 1000,
    digest_to_proof := [(5, (ProofOfStore.new ⟨5⟩, 7, 0))],
    timeouts := DigestTimeouts.new }

/-- A builder whose pending certificate for digest 5 already holds a
signature from validator 1. -/
def builderC6 : ProofBuilder :=
  { peer_id := 1, proof_timeout_ms := 1000,
    digest_to_proof :=
      [(5, ({ info := ⟨5⟩, signatures := [(1, 77)] }, 7, 0))],
    timeouts := DigestTimeouts.new }

/-- The certificate already stored in `builderC6` for digest 5. -/
def proofC6 : ProofOfStore :=
  { info := ⟨5⟩, signatures := [(1, 77)] }

/-- A builder whose digest 5 was registered at tick 0 with timeout 250 ms
(deadline tick 3) on channel 100. -/
def builderC9 : ProofBuilder :=
  { peer_id := 9, proof_timeout_ms := 250,
    digest_to_proof := [(5, (ProofOfStore.new ⟨5⟩, 7, 100))],
    timeouts := { now := 0, records := [(3, 5)] } }

/-! ## Basic facts about the map embedding and event counting -/

theorem mapLookup_erase (m : ProofMap) (d d2 : HashValue) :
    mapLookup (mapErase m d) d2 = if d2 = d then none else mapLookup m d2 := by
  induction m with
  | nil => simp [mapLookup, mapErase]
  | cons kv m ih =>
    by_cases h1 : kv.1 = d <;> by_cases h2 : d2 = d <;>
      by_cases h3 : kv.1 = d2 <;> simp_all [mapLookup, mapErase]

theorem mapLookup_insert (m : ProofMap) (d d2 : HashValue) (v : ProofEntry) :
    mapLookup (mapInsert m d v) d2 = if d2 = d then some v else mapLookup m d2 := by
  by_cases h : d2 = d
  · simp [mapInsert, mapLookup, h]
  · simp [mapInsert, mapLookup, h, mapLookup_erase,
      show d ≠ d2 from fun hh => h hh.symm]

theorem mapLookup_mem (m : ProofMap) (d : HashValue) (v : ProofEntry)
    (h : mapLookup m d = some v) : (d, v) ∈ m := by
  induction m with
  | nil => simp [mapLookup] at h
  | cons kv m ih =>
    by_cases h1 : kv.1 = d
    · simp [mapLookup, h1] at h
      cases kv with
      | mk k e =>
        simp at h1 h
        subst h1
        subst h
        exact List.mem_cons_self _ _
    · simp [mapLookup, h1] at h
      exact List.mem_cons_of_mem _ (ih h)

theorem mem_mapErase (m : ProofMap) (d : HashValue)
    (kv : HashValue × ProofEntry) (h : kv ∈ mapErase m d) : kv ∈ m := by
  induction m with
  | nil => simp [mapErase] at h
  | cons kv0 m ih =>
    by_cases h1 : kv0.1 = d
    · simp only [mapErase, if_pos h1] at h
      exact List.mem_cons_of_mem _ (ih h)
    · simp only [mapErase, if_neg h1] at h
      cases h with
      | head => exact List.mem_cons_self _ _
      | tail _ h2 => exact List.mem_cons_of_mem _ (ih h2)

theorem sentOn_append (c : ChannelId) (e1 e2 : List QSEvent) :
    sentOn c (e1 ++ e2) = sentOn c e1 + sentOn c e2 := by
  simp [sentOn, List.filter_append]

theorem sentOn_single (c ch : ChannelId) (msg : ProofResult) :
    sentOn c [QSEvent.sent ch msg] = if ch = c then 1 else 0 := by
  by_cases h : ch = c <;> simp [sentOn, List.filter, h]

/-! ## C3, C5, C6: the AppendSignature command -/

/-- C3: on an `AppendSignature` for a digest with a map entry, a successful
fold followed by the readiness predicate holding removes the entry and
sends the completed certificate with the original batch id on the stored
channel; a successful fold with readiness not holding keeps the (updated)
entry in the map and sends nothing. -/
theorem add_signature_quorum_resolution
    (s : ProofBuilder) (vv : ValidatorVerifier) (sd : SignedDigest)
    (proof proof' : ProofOfStore) (batch_id : BatchId) (tx : ChannelId)
    (hl : mapLookup s.digest_to_proof sd.info.digest = some (proof, batch_id, tx))
    (hf : proof.add_signature sd.peer_id sd.signature = .ok proof') :
    (proof'.ready vv s.peer_id = true →
      (s.add_signature sd vv).1 = .ok () ∧
      (s.add_signature sd vv).2.2 = [.sent tx (.ok proof' batch_id)] ∧
      mapLookup (s.add_signature sd vv).2.1.digest_to_proof sd.info.digest =
        none) ∧
    (proof'.ready vv s.peer_id = false →
      (s.add_signature sd vv).1 = .ok () ∧
      (s.add_signature sd vv).2.2 = [] ∧
      mapLookup (s.add_signature sd vv).2.1.digest_to_proof sd.info.digest =
        some (proof', batch_id, tx)) := by
  constructor
  · intro hr
    simp [ProofBuilder.add_signature, hl, hf, hr, mapLookup_erase]
  · intro hr
    simp [ProofBuilder.add_signature, hl, hf, hr, mapLookup_insert]

/-- C5: every `AppendSignature` whose digest has no map entry returns
`WrongDigest`, sends nothing, and leaves the aggregator state completely
unchanged, over any sequence of such calls. -/
theorem add_signature_unknown_digest_noop
    (s : ProofBuilder) (vv : ValidatorVerifier) (sds : List SignedDigest)
    (h : ∀ sd ∈ sds, mapLookup s.digest_to_proof sd.info.digest = none) :
    s.runAppends vv sds =
      (s, [], sds.map fun _ => Except.error SignedDigestError.WrongDigest) := by
  revert h
  induction sds with
  | nil =>
    intro h
    simp [ProofBuilder.runAppends]
  | cons sd sds ih =>
    intro h
    have h0 : mapLookup s.digest_to_proof sd.info.digest = none :=
      h sd (List.mem_cons_self _ _)
    have ih' := ih (fun x hx => h x (List.mem_cons_of_mem _ hx))
    simp [ProofBuilder.runAppends, ProofBuilder.add_signature, h0, ih']

/-- C6: on an `AppendSignature` for a digest with a map entry, a failing
fold (e.g. a duplicate contribution) returns the fold error to the
immediate caller, sends nothing, and leaves the whole state — including
the stored certificate, batch id and channel — unchanged. -/
theorem add_signature_fold_failure_noop
    (s : ProofBuilder) (vv : ValidatorVerifier) (sd : SignedDigest)
    (proof : ProofOfStore) (batch_id : BatchId) (tx : ChannelId)
    (e : SignedDigestError)
    (hl : mapLookup s.digest_to_proof sd.info.digest = some (proof, batch_id, tx))
    (hf : proof.add_signature sd.peer_id sd.signature = .error e) :
    s.add_signature sd vv = (.error e, s, []) := by
  simp [ProofBuilder.add_signature, hl, hf]

/-! ## C7, C8, C10: the wire-type checks -/

/-- C7: `Fragment::verify` succeeds iff quorum-store is enabled, any
embedded expiration's epoch equals the fragment's epoch, and the claimed
source equals the attested sender; the first failing check (feature gate,
then expiration epoch, then sender) determines the error, and the result
never depends on the transaction payload. -/
theorem fragment_verify_characterization (f : Fragment) (p : PeerId) (q : Bool) :
    (f.verify p q = .ok () ↔
      (q = true ∧
       (∀ exp, f.fragment_info.maybe_expiration = some exp →
          exp.epoch = f.fragment_info.epoch) ∧
       f.source = p)) ∧
    (q = false → f.verify p q = .error .QuorumStoreDisabled) ∧
    (∀ exp, q = true → f.fragment_info.maybe_expiration = some exp →
       exp.epoch ≠ f.fragment_info.epoch →
       f.verify p q = .error .EpochMismatch) ∧
    (q = true →
       (∀ exp, f.fragment_info.maybe_expiration = some exp →
          exp.epoch = f.fragment_info.epoch) →
       f.source ≠ p → f.verify p q = .error .SenderMismatch) ∧
    (∀ pl, Fragment.verify
        { f with fragment_info := { f.fragment_info with payload := pl } } p q =
      f.verify p q) := by
  refine ⟨?_, ?_, ?_, ?_, fun pl => rfl⟩
  · cases q with
    | false => simp [Fragment.verify]
    | true =>
      cases hx : f.fragment_info.maybe_expiration with
      | none => by_cases hs : f.source = p <;> simp [Fragment.verify, hx, hs]
      | some exp =>
        by_cases he : exp.epoch = f.fragment_info.epoch
        · by_cases hs : f.source = p <;> simp [Fragment.verify, hx, he, hs]
        · simp [Fragment.verify, hx, he]
  · intro hq
    simp [Fragment.verify, hq]
  · intro exp hq hx he
    simp [Fragment.verify, hq, hx, he]
  · intro hq hexp hs
    cases hx : f.fragment_info.maybe_expiration with
    | none => simp [Fragment.verify, hq, hx, hs]
    | some exp => simp [Fragment.verify, hq, hx, hexp exp hx, hs]

/-- C8: `Batch::verify` succeeds iff quorum-store is enabled and the
claimed source equals the attested sender; the payload is never inspected,
so a request (no payload) and a response (payload present) verify
identically. -/
theorem batch_verify_characterization (b : Batch) (p : PeerId) (q : Bool) :
    (b.verify p q = .ok () ↔ (q = true ∧ b.source = p)) ∧
    (q = false → b.verify p q = .error .QuorumStoreDisabled) ∧
    (q = true → b.source ≠ p → b.verify p q = .error .SenderMismatch) ∧
    (∀ mp, Batch.verify { b with maybe_payload := mp } p q = b.verify p q) := by
  refine ⟨?_, ?_, ?_, fun mp => rfl⟩
  · cases q with
    | false => simp [Batch.verify]
    | true => by_cases hs : b.source = p <;> simp [Batch.verify, hs]
  · intro hq
    simp [Batch.verify, hq]
  · intro hq hs
    simp [Batch.verify, hq, hs]

/-- C10: `Batch::get_payload` is partial — it returns the payload of a
response-type batch and panics ("Batch contains no payload") on a
request-type batch; its precondition is that the batch is a response. -/
theorem batch_get_payload_cases (b : Batch) :
    (∀ pl, b.maybe_payload = some pl → b.get_payload = .ok pl) ∧
    (b.maybe_payload = none →
      b.get_payload = .panicked "Batch contains no payload") := by
  constructor
  · intro pl h
    simp [Batch.get_payload, h]
  · intro h
    simp [Batch.get_payload, h]

/-! ## C2: reply delivery to a dropped receiver panics -/

/-- C2: at a concrete state whose stored reply channel's receiver has been
dropped, the quorum branch of `add_signature` and the timeout branch of
`expire` both panic through `.expect` instead of swallowing or logging the
failed send: the actor loop does not survive a dropped receiver. -/
theorem reply_send_panics_when_receiver_dropped :
    ProofBuilder.add_signature_checked [0]
      { peer_id := 1, proof_timeout_ms := 1000,
        digest_to_proof := [(5, (ProofOfStore.new ⟨5⟩, 7, 0))],
        timeouts := DigestTimeouts.new }
      { peer_id := 1, info := ⟨5⟩, signature := 77 }
      { voting_power := [(1, 10)], quorum_threshold := 5 } =
      .panicked "Unable to send the proof of store" ∧
    expireLoopChecked [0] [5] [(5, (ProofOfStore.new ⟨5⟩, 7, 0))] =
      .panicked "Unable to send the timeout a proof of store" := by
  constructor <;> rfl

/-! ## C9: InitProof on an already-registered digest -/

/-- C9: `init_proof` on a digest that already has a map entry succeeds,
silently replaces the entry (the old reply channel is dropped without any
reply being sent), and registers an additional timeout without cancelling
the old one — so the old registration's deadline can expire the
replacement entry and deliver its timeout earlier than `proof_timeout_ms`
after the second registration (concretely: timeout 250 ms, re-registered
at tick 2, timeout reply already at tick 3). -/
theorem init_proof_overwrites_existing
    (s : ProofBuilder) (info : SignedDigestInfo) (b2 : BatchId) (c2 : ChannelId)
    (pOld : ProofOfStore) (b1 : BatchId) (c1 : ChannelId)
    (hl : mapLookup s.digest_to_proof info.digest = some (pOld, b1, c1)) :
    (s.init_proof info b2 c2).1 = .ok () ∧
    (s.init_proof info b2 c2).2.2 = [] ∧
    mapLookup (s.init_proof info b2 c2).2.1.digest_to_proof info.digest =
      some (ProofOfStore.new info, b2, c2) ∧
    (s.init_proof info b2 c2).2.1.timeouts.records =
      s.timeouts.records ++
        [(s.timeouts.now + (s.proof_timeout_ms + 99) / 100, info.digest)] ∧
    ((((((ProofBuilder.new 250 9).init_proof ⟨5⟩ 7 100).2.1.run ⟨[], 1⟩
          [.tick, .tick]).1.init_proof ⟨5⟩ 8 200).2.1.step ⟨[], 1⟩ .tick).2 =
        [.sent 200 (.err (.Timeout 8))] ∧
     (((ProofBuilder.new 250 9).init_proof ⟨5⟩ 7 100).2.1.run ⟨[], 1⟩
          [.tick, .tick]).2 = []) := by
  refine ⟨rfl, rfl, ?_, ?_, ?_, ?_⟩
  · simp [ProofBuilder.init_proof, mapLookup_insert]
  · simp [ProofBuilder.init_proof, DigestTimeouts.add_digest]
  · rfl
  · rfl

/-! ## Lemmas about the expiry loop -/

theorem sentOn_cons_sent (c ch : ChannelId) (msg : ProofResult)
    (evs : List QSEvent) :
    sentOn c (QSEvent.sent ch msg :: evs) =
      (if ch = c then 1 else 0) + sentOn c evs := by
  by_cases h : ch = c <;> simp [sentOn, List.filter, h, Nat.add_comm]

theorem mem_mapErase_ne (m : ProofMap) (d : HashValue)
    (kv : HashValue × ProofEntry) (h : kv ∈ mapErase m d) : kv.1 ≠ d := by
  induction m with
  | nil => simp [mapErase] at h
  | cons kv0 m ih =>
    by_cases h1 : kv0.1 = d
    · simp only [mapErase, if_pos h1] at h
      exact ih h
    · simp only [mapErase, if_neg h1] at h
      cases h with
      | head => exact h1
      | tail _ h2 => exact ih h2

theorem chanFree_mapErase (m : ProofMap) (d : HashValue) (c : ChannelId)
    (h : chanFree m c) : chanFree (mapErase m d) c :=
  fun kv hkv => h kv (mem_mapErase m d kv hkv)

theorem chanOnlyAt_mapErase (m : ProofMap) (d0 d : HashValue) (c : ChannelId)
    (h : chanOnlyAt m d c) : chanOnlyAt (mapErase m d0) d c :=
  fun kv hkv => h kv (mem_mapErase m d0 kv hkv)

theorem chanFree_of_erase_self (m : ProofMap) (d : HashValue) (c : ChannelId)
    (h : chanOnlyAt m d c) : chanFree (mapErase m d) c := by
  intro kv hkv hcc
  exact mem_mapErase_ne m d kv hkv (h kv (mem_mapErase m d kv hkv) hcc)

theorem expireLoop_lookup (ds : List HashValue) (m : ProofMap) (d : HashValue) :
    mapLookup (expireLoop ds m).1 d =
      if d ∈ ds then none else mapLookup m d := by
  induction ds generalizing m with
  | nil => simp [expireLoop]
  | cons d' ds ih =>
    cases hm : mapLookup m d' with
    | some v =>
      obtain ⟨p, b, c⟩ := v
      simp only [expireLoop, hm]
      rw [ih]
      by_cases hd : d = d' <;> by_cases hds : d ∈ ds <;>
        simp_all [mapLookup_erase]
    | none =>
      simp only [expireLoop, hm]
      rw [ih]
      by_cases hd : d = d' <;> by_cases hds : d ∈ ds <;> simp_all

theorem expireLoop_chanFree (ds : List HashValue) (m : ProofMap)
    (c : ChannelId) (h : chanFree m c) :
    chanFree (expireLoop ds m).1 c ∧ sentOn c (expireLoop ds m).2 = 0 := by
  induction ds generalizing m with
  | nil => exact ⟨h, rfl⟩
  | cons d ds ih =>
    cases hm : mapLookup m d with
    | some v =>
      obtain ⟨p, b, tx⟩ := v
      have htx : tx ≠ c := fun hh => h (d, (p, b, tx)) (mapLookup_mem _ _ _ hm) hh
      have hrest := ih (mapErase m d) (chanFree_mapErase m d c h)
      simp only [expireLoop, hm]
      exact ⟨hrest.1, by rw [sentOn_cons_sent]; simp [htx, hrest.2]⟩
    | none =>
      simp only [expireLoop, hm]
      exact ih m h

theorem expireLoop_sends_mem (ds : List HashValue) (m : ProofMap)
    (d : HashValue) (p : ProofOfStore) (b : BatchId) (c : ChannelId)
    (hl : mapLookup m d = some (p, b, c)) (hd : d ∈ ds) :
    QSEvent.sent c (.err (.Timeout b)) ∈ (expireLoop ds m).2 := by
  induction ds generalizing m with
  | nil => simp at hd
  | cons d' ds ih =>
    by_cases hdd : d' = d
    · subst hdd
      simp only [expireLoop, hl]
      exact List.mem_cons_self _ _
    · have hd' : d ∈ ds := by
        cases hd with
        | head => exact absurd rfl hdd
        | tail _ hh => exact hh
      cases hm : mapLookup m d' with
      | some v =>
        obtain ⟨p', b', c'⟩ := v
        have hl2 : mapLookup (mapErase m d') d = some (p, b, c) := by
          rw [mapLookup_erase]
          simp [show d ≠ d' from fun hh => hdd hh.symm, hl]
        simp only [expireLoop, hm]
        exact List.mem_cons_of_mem _ (ih (mapErase m d') hl2 hd')
      | none =>
        simp only [expireLoop, hm]
        exact ih m hl hd'

theorem expireLoop_sends_sources (ds : List HashValue) (m : ProofMap)
    (ch : ChannelId) (msg : ProofResult)
    (h : QSEvent.sent ch msg ∈ (expireLoop ds m).2) :
    ∃ d p b, d ∈ ds ∧ mapLookup m d = some (p, b, ch) ∧
      msg = .err (.Timeout b) := by
  induction ds generalizing m with
  | nil => simp [expireLoop] at h
  | cons d' ds ih =>
    cases hm : mapLookup m d' with
    | some v =>
      obtain ⟨p', b', c'⟩ := v
      simp only [expireLoop, hm] at h
      cases h with
      | head =>
        exact ⟨d', p', b', List.mem_cons_self _ _, hm, rfl⟩
      | tail _ h2 =>
        obtain ⟨d, p, b, hds, hl, hmsg⟩ := ih (mapErase m d') h2
        rw [mapLookup_erase] at hl
        by_cases hdd : d = d'
        · simp [hdd] at hl
        · simp [hdd] at hl
          exact ⟨d, p, b, List.mem_cons_of_mem _ hds, hl, hmsg⟩
    | none =>
      simp only [expireLoop, hm] at h
      obtain ⟨d, p, b, hds, hl, hmsg⟩ := ih m h
      exact ⟨d, p, b, List.mem_cons_of_mem _ hds, hl, hmsg⟩

/-! ## C4: the expiry tick -/

/-- C4: on an expiry tick, a digest returned by the tracker's `expire`
that still has a map entry is removed and a timeout failure carrying its
batch id is sent on its stored channel; a returned digest without an entry
causes no removal and no send (every sent event originates from an entry
of an expired digest); digests not returned keep their map state. -/
theorem expire_timeout_delivery
    (s : ProofBuilder) (d : HashValue) (p : ProofOfStore) (b : BatchId)
    (c : ChannelId) :
    (mapLookup (s.expire).1.digest_to_proof d =
       if d ∈ (s.timeouts.expire).1 then none
       else mapLookup s.digest_to_proof d) ∧
    (d ∈ (s.timeouts.expire).1 →
       mapLookup s.digest_to_proof d = some (p, b, c) →
       QSEvent.sent c (.err (.Timeout b)) ∈ (s.expire).2) ∧
    (∀ ch msg, QSEvent.sent ch msg ∈ (s.expire).2 →
       ∃ d' p' b', d' ∈ (s.timeouts.expire).1 ∧
         mapLookup s.digest_to_proof d' = some (p', b', ch) ∧
         msg = .err (.Timeout b')) := by
  refine ⟨?_, ?_, ?_⟩
  · simpa [ProofBuilder.expire] using
      expireLoop_lookup (s.timeouts.expire).1 s.digest_to_proof d
  · intro hd hl
    simpa [ProofBuilder.expire] using
      expireLoop_sends_mem (s.timeouts.expire).1 s.digest_to_proof d p b c hl hd
  · intro ch msg hmem
    simp only [ProofBuilder.expire] at hmem
    exact expireLoop_sends_sources (s.timeouts.expire).1 s.digest_to_proof
      ch msg hmem

/-! ## Lemmas for the exactly-once reply property -/

theorem expireLoop_pending (ds : List HashValue) (m : ProofMap)
    (d : HashValue) (p : ProofOfStore) (b : BatchId) (c : ChannelId)
    (hl : mapLookup m d = some (p, b, c)) (hc : chanOnlyAt m d c) :
    (d ∉ ds ∧ mapLookup (expireLoop ds m).1 d = some (p, b, c) ∧
      chanOnlyAt (expireLoop ds m).1 d c ∧ sentOn c (expireLoop ds m).2 = 0) ∨
    (d ∈ ds ∧ mapLookup (expireLoop ds m).1 d = none ∧
      chanFree (expireLoop ds m).1 c ∧ sentOn c (expireLoop ds m).2 = 1) := by
  induction ds generalizing m with
  | nil => exact Or.inl ⟨by simp, hl, hc, rfl⟩
  | cons d' ds ih =>
    by_cases hdd : d' = d
    · subst hdd
      right
      simp only [expireLoop, hl]
      have hrest :=
        expireLoop_chanFree ds (mapErase m d') c (chanFree_of_erase_self m d' c hc)
      refine ⟨List.mem_cons_self _ _, ?_, hrest.1, ?_⟩
      · rw [expireLoop_lookup]
        by_cases hmem : d' ∈ ds <;> simp [hmem, mapLookup_erase]
      · rw [sentOn_cons_sent]
        simp [hrest.2]
    · have hl2 : mapLookup (mapErase m d') d = some (p, b, c) := by
        rw [mapLookup_erase]
        simp [show d ≠ d' from fun hh => hdd hh.symm, hl]
      cases hm : mapLookup m d' with
      | none =>
        simp only [expireLoop, hm]
        rcases ih m hl hc with ⟨h1, h2, h3, h4⟩ | ⟨h1, h2, h3, h4⟩
        · refine Or.inl ⟨?_, h2, h3, h4⟩
          rw [List.mem_cons]
          push_neg
          exact ⟨fun hh => hdd hh.symm, h1⟩
        · exact Or.inr ⟨List.mem_cons_of_mem _ h1, h2, h3, h4⟩
      | some v =>
        obtain ⟨p', b', tx'⟩ := v
        have htx : tx' ≠ c := fun hh =>
          hdd (hc (d', (p', b', tx')) (mapLookup_mem _ _ _ hm) hh)
        have hc2 := chanOnlyAt_mapErase m d' d c hc
        simp only [expireLoop, hm]
        rcases ih (mapErase m d') hl2 hc2 with ⟨h1, h2, h3, h4⟩ | ⟨h1, h2, h3, h4⟩
        · refine Or.inl ⟨?_, h2, h3, ?_⟩
          · rw [List.mem_cons]
            push_neg
            exact ⟨fun hh => hdd hh.symm, h1⟩
          · rw [sentOn_cons_sent]
            simp [htx, h4]
        · refine Or.inr ⟨List.mem_cons_of_mem _ h1, h2, h3, ?_⟩
          rw [sentOn_cons_sent]
          simp [htx, h4]

theorem step_chanFree (s : ProofBuilder) (vv : ValidatorVerifier) (cmd : Cmd)
    (c : ChannelId) (h : chanFree s.digest_to_proof c) :
    chanFree (s.step vv cmd).1.digest_to_proof c ∧
      sentOn c (s.step vv cmd).2 = 0 := by
  cases cmd with
  | tick =>
    simpa [ProofBuilder.step, ProofBuilder.expire] using
      expireLoop_chanFree (s.timeouts.expire).1 s.digest_to_proof c h
  | append sd =>
    cases hm : mapLookup s.digest_to_proof sd.info.digest with
    | none =>
      simp only [ProofBuilder.step, ProofBuilder.add_signature, hm]
      exact ⟨h, rfl⟩
    | some v =>
      obtain ⟨pe, be, te⟩ := v
      have hte : te ≠ c := fun hh =>
        h (sd.info.digest, (pe, be, te)) (mapLookup_mem _ _ _ hm) hh
      cases hf : pe.add_signature sd.peer_id sd.signature with
      | error e =>
        simp only [ProofBuilder.step, ProofBuilder.add_signature, hm, hf]
        exact ⟨h, rfl⟩
      | ok pe' =>
        by_cases hr : pe'.ready vv s.peer_id = true
        · simp only [ProofBuilder.step, ProofBuilder.add_signature, hm, hf, hr,
            if_true]
          refine ⟨chanFree_mapErase _ _ _ h, ?_⟩
          rw [sentOn_cons_sent]
          simp [hte, sentOn]
        · simp only [ProofBuilder.step, ProofBuilder.add_signature, hm, hf,
            if_neg hr]
          refine ⟨?_, rfl⟩
          intro kv hkv hcc
          rw [mapInsert] at hkv
          rcases List.mem_cons.mp hkv with hkv1 | hkv2
          · rw [hkv1] at hcc
            exact hte hcc
          · exact h kv (mem_mapErase _ _ _ hkv2) hcc

theorem step_lookup_none (s : ProofBuilder) (vv : ValidatorVerifier)
    (cmd : Cmd) (d : HashValue) (h : mapLookup s.digest_to_proof d = none) :
    mapLookup (s.step vv cmd).1.digest_to_proof d = none := by
  cases cmd with
  | tick =>
    simp only [ProofBuilder.step, ProofBuilder.expire]
    rw [expireLoop_lookup]
    by_cases hd : d ∈ (s.timeouts.expire).1 <;> simp [hd, h]
  | append sd =>
    cases hm : mapLookup s.digest_to_proof sd.info.digest with
    | none =>
      simpa [ProofBuilder.step, ProofBuilder.add_signature, hm] using h
    | some v =>
      obtain ⟨pe, be, te⟩ := v
      have hne : d ≠ sd.info.digest := by
        intro hh
        rw [hh, hm] at h
        cases h
      cases hf : pe.add_signature sd.peer_id sd.signature with
      | error e =>
        simpa [ProofBuilder.step, ProofBuilder.add_signature, hm, hf] using h
      | ok pe' =>
        by_cases hr : pe'.ready vv s.peer_id = true
        · simp only [ProofBuilder.step, ProofBuilder.add_signature, hm, hf, hr,
            if_true]
          rw [mapLookup_erase]
          simp [hne, h]
        · simp only [ProofBuilder.step, ProofBuilder.add_signature, hm, hf,
            if_neg hr]
          rw [mapLookup_insert]
          simp [hne, h]

theorem step_pending (s : ProofBuilder) (vv : ValidatorVerifier) (cmd : Cmd)
    (d : HashValue) (c : ChannelId) (h : pendingAt s.digest_to_proof d c) :
    (pendingAt (s.step vv cmd).1.digest_to_proof d c ∧
      sentOn c (s.step vv cmd).2 = 0) ∨
    (mapLookup (s.step vv cmd).1.digest_to_proof d = none ∧
      chanFree (s.step vv cmd).1.digest_to_proof c ∧
      sentOn c (s.step vv cmd).2 = 1) := by
  obtain ⟨⟨p, b, hl⟩, hc⟩ := h
  cases cmd with
  | tick =>
    simp only [ProofBuilder.step, ProofBuilder.expire]
    rcases expireLoop_pending (s.timeouts.expire).1 s.digest_to_proof d p b c
        hl hc with ⟨_, h2, h3, h4⟩ | ⟨_, h2, h3, h4⟩
    · exact Or.inl ⟨⟨⟨p, b, h2⟩, h3⟩, h4⟩
    · exact Or.inr ⟨h2, h3, h4⟩
  | append sd =>
    by_cases hdt : sd.info.digest = d
    · -- the command targets the pending digest itself
      have hm : mapLookup s.digest_to_proof sd.info.digest = some (p, b, c) := by
        rw [hdt]
        exact hl
      cases hf : p.add_signature sd.peer_id sd.signature with
      | error e =>
        simp only [ProofBuilder.step, ProofBuilder.add_signature, hm, hf]
        exact Or.inl ⟨⟨⟨p, b, hl⟩, hc⟩, rfl⟩
      | ok p' =>
        by_cases hr : p'.ready vv s.peer_id = true
        · simp only [ProofBuilder.step, ProofBuilder.add_signature, hm, hf, hr,
            if_true]
          refine Or.inr ⟨?_, ?_, ?_⟩
          · rw [hdt, mapLookup_erase]
            simp
          · rw [hdt]
            exact chanFree_of_erase_self _ _ _ hc
          · rw [sentOn_cons_sent]
            simp [sentOn]
        · simp only [ProofBuilder.step, ProofBuilder.add_signature, hm, hf,
            if_neg hr]
          refine Or.inl ⟨⟨⟨p', b, ?_⟩, ?_⟩, rfl⟩
          · rw [hdt, mapLookup_insert]
            simp
          · rw [hdt]
            intro kv hkv hcc
            rw [mapInsert] at hkv
            rcases List.mem_cons.mp hkv with hkv1 | hkv2
            · rw [hkv1]
            · exact hc kv (mem_mapErase _ _ _ hkv2) hcc
    · -- the command targets a different digest
      cases hm : mapLookup s.digest_to_proof sd.info.digest with
      | none =>
        simp only [ProofBuilder.step, ProofBuilder.add_signature, hm]
        exact Or.inl ⟨⟨⟨p, b, hl⟩, hc⟩, rfl⟩
      | some v =>
        obtain ⟨pe, be, te⟩ := v
        have hte : te ≠ c := fun hh =>
          hdt (hc (sd.info.digest, (pe, be, te)) (mapLookup_mem _ _ _ hm) hh)
        have hl2 : mapLookup (mapErase s.digest_to_proof sd.info.digest) d =
            some (p, b, c) := by
          rw [mapLookup_erase]
          simp [show d ≠ sd.info.digest from fun hh => hdt hh.symm, hl]
        cases hf : pe.add_signature sd.peer_id sd.signature with
        | error e =>
          simp only [ProofBuilder.step, ProofBuilder.add_signature, hm, hf]
          exact Or.inl ⟨⟨⟨p, b, hl⟩, hc⟩, rfl⟩
        | ok pe' =>
          by_cases hr : pe'.ready vv s.peer_id = true
          · simp only [ProofBuilder.step, ProofBuilder.add_signature, hm, hf,
              hr, if_true]
            refine Or.inl ⟨⟨⟨p, b, hl2⟩, chanOnlyAt_mapErase _ _ _ _ hc⟩, ?_⟩
            rw [sentOn_cons_sent]
            simp [hte, sentOn]
          · simp only [ProofBuilder.step, ProofBuilder.add_signature, hm, hf,
              if_neg hr]
            refine Or.inl ⟨⟨⟨p, b, ?_⟩, ?_⟩, rfl⟩
            · rw [mapLookup_insert]
              simp [show d ≠ sd.info.digest from fun hh => hdt hh.symm, hl]
            · intro kv hkv hcc
              rw [mapInsert] at hkv
              rcases List.mem_cons.mp hkv with hkv1 | hkv2
              · rw [hkv1] at hcc
                exact absurd hcc hte
              · exact hc kv (mem_mapErase _ _ _ hkv2) hcc

theorem run_chanFree (s : ProofBuilder) (vv : ValidatorVerifier)
    (cmds : List Cmd) (c : ChannelId) (h : chanFree s.digest_to_proof c) :
    chanFree (s.run vv cmds).1.digest_to_proof c ∧
      sentOn c (s.run vv cmds).2 = 0 := by
  induction cmds generalizing s with
  | nil => exact ⟨h, rfl⟩
  | cons cmd cmds ih =>
    have h1 := step_chanFree s vv cmd c h
    have h2 := ih (s.step vv cmd).1 h1.1
    simp only [ProofBuilder.run]
    exact ⟨h2.1, by rw [sentOn_append]; simp [h1.2, h2.2]⟩

theorem run_lookup_none (s : ProofBuilder) (vv : ValidatorVerifier)
    (cmds : List Cmd) (d : HashValue)
    (h : mapLookup s.digest_to_proof d = none) :
    mapLookup (s.run vv cmds).1.digest_to_proof d = none := by
  induction cmds generalizing s with
  | nil => exact h
  | cons cmd cmds ih =>
    simp only [ProofBuilder.run]
    exact ih (s.step vv cmd).1 (step_lookup_none s vv cmd d h)

theorem run_pending (s : ProofBuilder) (vv : ValidatorVerifier)
    (cmds : List Cmd) (d : HashValue) (c : ChannelId)
    (h : pendingAt s.digest_to_proof d c) :
    (pendingAt (s.run vv cmds).1.digest_to_proof d c ∧
      sentOn c (s.run vv cmds).2 = 0) ∨
    (mapLookup (s.run vv cmds).1.digest_to_proof d = none ∧
      sentOn c (s.run vv cmds).2 = 1) := by
  induction cmds generalizing s with
  | nil => exact Or.inl ⟨h, rfl⟩
  | cons cmd cmds ih =>
    simp only [ProofBuilder.run]
    rcases step_pending s vv cmd d c h with ⟨hp, hs⟩ | ⟨hn, hf, hs⟩
    · rcases ih (s.step vv cmd).1 hp with ⟨hp2, hs2⟩ | ⟨hn2, hs2⟩
      · exact Or.inl ⟨hp2, by rw [sentOn_append]; simp [hs, hs2]⟩
      · exact Or.inr ⟨hn2, by rw [sentOn_append]; simp [hs, hs2]⟩
    · have h1 := run_chanFree (s.step vv cmd).1 vv cmds c hf
      have h2 := run_lookup_none (s.step vv cmd).1 vv cmds d hn
      exact Or.inr ⟨h2, by rw [sentOn_append]; simp [hs, h1.2]⟩

/-! ## C1: at most one reply per registered digest -/

/-- C1: from any state in which digest `d` has a pending proof context
whose stored reply channel `c` is stored nowhere else (as `InitProof`
guarantees: the one-shot channel is fresh and `InitProof` is not repeated
for `d`), any sequence of `AppendSignature` commands and expiry ticks
sends at most one value on `c`; moreover `d`'s entry has been removed by
the end of the run exactly when exactly one value was sent on `c` — so the
entry is removed by exactly one of quorum resolution or timeout expiry,
never both, and each removal sends exactly one value. -/
theorem at_most_one_reply
    (s : ProofBuilder) (vv : ValidatorVerifier) (cmds : List Cmd)
    (d : HashValue) (c : ChannelId) (p : ProofOfStore) (b : BatchId)
    (hl : mapLookup s.digest_to_proof d = some (p, b, c))
    (hc : chanOnlyAt s.digest_to_proof d c) :
    sentOn c (s.run vv cmds).2 ≤ 1 ∧
    (mapLookup (s.run vv cmds).1.digest_to_proof d = none ↔
      sentOn c (s.run vv cmds).2 = 1) := by
  rcases run_pending s vv cmds d c ⟨⟨p, b, hl⟩, hc⟩ with
    ⟨⟨⟨p', b', hl'⟩, _⟩, hs⟩ | ⟨hn, hs⟩
  · rw [hs]
    simp [hl']
  · rw [hs, hn]
    simp

/-! ## Concrete instantiations -/

theorem at_most_one_reply_witness :
    (mapLookup builderC1.digest_to_proof 5 = some (ProofOfStore.new ⟨5⟩, 7, 0) ∧
     chanOnlyAt builderC1.digest_to_proof 5 0) ∧
    (sentOn 0 (builderC1.run vvC1 [.append ⟨1, ⟨5⟩, 77⟩, .tick]).2 ≤ 1 ∧
     (mapLookup (builderC1.run vvC1
         [.append ⟨1, ⟨5⟩, 77⟩, .tick]).1.digest_to_proof 5 = none ↔
       sentOn 0 (builderC1.run vvC1 [.append ⟨1, ⟨5⟩, 77⟩, .tick]).2 = 1)) :=
  ⟨⟨by decide, by unfold chanOnlyAt; decide⟩,
   at_most_one_reply builderC1 vvC1 [.append ⟨1, ⟨5⟩, 77⟩, .tick] 5 0
     (ProofOfStore.new ⟨5⟩) 7 (by decide) (by unfold chanOnlyAt; decide)⟩

theorem add_signature_quorum_resolution_witness :
    (mapLookup builderC3.digest_to_proof 5 = some (ProofOfStore.new ⟨5⟩, 7, 0) ∧
     (ProofOfStore.new ⟨5⟩).add_signature 1 77 = .ok proofC3 ∧
     proofC3.ready vvC3 builderC3.peer_id = true) ∧
    ((builderC3.add_signature ⟨1, ⟨5⟩, 77⟩ vvC3).1 = .ok () ∧
     (builderC3.add_signature ⟨1, ⟨5⟩, 77⟩ vvC3).2.2 =
       [.sent 0 (.ok proofC3 7)] ∧
     mapLookup (builderC3.add_signature ⟨1, ⟨5⟩, 77⟩
         vvC3).2.1.digest_to_proof 5 = none) :=
  ⟨⟨by decide, rfl, by decide⟩,
   (add_signature_quorum_resolution builderC3 vvC3 ⟨1, ⟨5⟩, 77⟩
      (ProofOfStore.new ⟨5⟩) proofC3 7 0 (by decide) rfl).1 (by decide)⟩

theorem add_signature_unknown_digest_noop_witness :
    (∀ sd ∈ ([⟨2, ⟨9⟩, 3⟩, ⟨4, ⟨8⟩, 1⟩] : List SignedDigest),
       mapLookup builderC5.digest_to_proof sd.info.digest = none) ∧
    builderC5.runAppends ⟨[(1, 10)], 5⟩ [⟨2, ⟨9⟩, 3⟩, ⟨4, ⟨8⟩, 1⟩] =
      (builderC5, [], [.error .WrongDigest, .error .WrongDigest]) :=
  ⟨by decide,
   add_signature_unknown_digest_noop builderC5 ⟨[(1, 10)], 5⟩
     [⟨2, ⟨9⟩, 3⟩, ⟨4, ⟨8⟩, 1⟩] (by decide)⟩

theorem add_signature_fold_failure_noop_witness :
    (mapLookup builderC6.digest_to_proof 5 = some (proofC6, 7, 0) ∧
     proofC6.add_signature 1 88 = .error .DuplicatedSignature) ∧
    builderC6.add_signature ⟨1, ⟨5⟩, 88⟩ ⟨[(1, 10)], 5⟩ =
      (.error .DuplicatedSignature, builderC6, []) :=
  ⟨⟨by decide, rfl⟩,
   add_signature_fold_failure_noop builderC6 ⟨[(1, 10)], 5⟩ ⟨1, ⟨5⟩, 88⟩
     proofC6 7 0 .DuplicatedSignature (by decide) rfl⟩

theorem expire_timeout_delivery_witness :
    (5 ∈ (builderC4.timeouts.expire).1 ∧
     mapLookup builderC4.digest_to_proof 5 =
       some (ProofOfStore.new ⟨5⟩, 7, 100)) ∧
    QSEvent.sent 100 (.err (.Timeout 7)) ∈ (builderC4.expire).2 :=
  ⟨⟨by decide, by decide⟩,
   (expire_timeout_delivery builderC4 5 (ProofOfStore.new ⟨5⟩) 7 100).2.1
     (by decide) (by decide)⟩

theorem fragment_verify_characterization_witness :
    Fragment.verify
      { source := 3,
        fragment_info :=
          { epoch := 2, batch_id := 1, fragment_id := 0, payload := [],
            maybe_expiration := some ⟨2, 0⟩ } } 3 true = .ok () :=
  (fragment_verify_characterization
    ⟨3, ⟨2, 1, 0, [], some ⟨2, 0⟩⟩⟩ 3 true).1.mpr (by decide)

theorem batch_verify_characterization_witness :
    Batch.verify { source := 3, maybe_payload := none, batch_info := ⟨2, 5⟩ }
      3 true = .ok () :=
  (batch_verify_characterization ⟨3, none, ⟨2, 5⟩⟩ 3 true).1.mpr (by decide)

theorem batch_get_payload_cases_witness :
    Batch.get_payload
      { source := 3, maybe_payload := some [11, 12], batch_info := ⟨2, 5⟩ } =
      .ok [11, 12] ∧
    Batch.get_payload
      { source := 3, maybe_payload := none, batch_info := ⟨2, 5⟩ } =
      .panicked "Batch contains no payload" :=
  ⟨(batch_get_payload_cases ⟨3, some [11, 12], ⟨2, 5⟩⟩).1 [11, 12] rfl,
   (batch_get_payload_cases ⟨3, none, ⟨2, 5⟩⟩).2 rfl⟩

theorem init_proof_overwrites_existing_witness :
    mapLookup builderC9.digest_to_proof 5 =
      some (ProofOfStore.new ⟨5⟩, 7, 100) ∧
    ((builderC9.init_proof ⟨5⟩ 8 200).1 = .ok () ∧
     (builderC9.init_proof ⟨5⟩ 8 200).2.2 = [] ∧
     mapLookup (builderC9.init_proof ⟨5⟩ 8 200).2.1.digest_to_proof 5 =
       some (ProofOfStore.new ⟨5⟩, 8, 200) ∧
     (builderC9.init_proof ⟨5⟩ 8 200).2.1.timeouts.records =
       builderC9.timeouts.records ++
         [(builderC9.timeouts.now +
             (builderC9.proof_timeout_ms + 99) / 100, 5)] ∧
     ((((((ProofBuilder.new 250 9).init_proof ⟨5⟩ 7 100).2.1.run ⟨[], 1⟩
           [.tick, .tick]).1.init_proof ⟨5⟩ 8 200).2.1.step ⟨[], 1⟩ .tick).2 =
         [.sent 200 (.err (.Timeout 8))] ∧
      (((ProofBuilder.new 250 9).init_proof ⟨5⟩ 7 100).2.1.run ⟨[], 1⟩
           [.tick, .tick]).2 = [])) :=
  ⟨by decide,
   init_proof_overwrites_existing builderC9 ⟨5⟩ 8 200 (ProofOfStore.new ⟨5⟩)
     7 100 (by decide)⟩

end QuorumStore
